import Mathlib

/-!
Shallow embedding of the connection-supervisor core of
`src/backends/PublicLobbyBackend.ts` (auproximity).  Pure functions model the
handlers and the retry loops; asynchronous protocol responses are supplied as
explicit outcome scripts (oracles), and every emission to the consumer is
collected in an event trace.
-/

namespace AUP

/-- Domain events emitted to the owning process, `emit(eventKind, payload)`
in the source (`emitError`, `emitHostChange`, `emitPlayerColor`,
`emitPlayerFlags`, `emitSettingsUpdate`, ...). -/
inductive PlayerFlagKind where
  | IsImpostor
  | IsDead
  | OnCams
deriving DecidableEq, Repr

/-- `GameSettings` mirror from `src/types/models/ClientOptions`: the backend
keeps only `{map, crewmateVision}`.  Both are JS numbers compared with `!==`;
we model them as integers, which is faithful for every comparison the code
performs. -/
structure GameSettings where
  map : Int
  crewmateVision : Int
deriving DecidableEq, Repr

/-- Tagged union of the domain events the backend can emit. -/
inductive DomainEvent where
  | error (message : String) (fatal : Bool)
  | hostChange (name : String)
  | playerPose (name : String) (x y : Int)
  | playerColor (name : String) (color : Int)
  | playerFlags (name : String) (flag : PlayerFlagKind) (value : Bool)
  | playerVent (name : String) (ventid : Int)
  | gameStateChange (state : Nat)
  | gameFlags (flag : Nat) (value : Bool)
  | settingsUpdate (settings : GameSettings)
deriving DecidableEq, Repr

/-- Whether an event is an `Error` report carrying `fatal = true`. -/
def eventFatal : DomainEvent → Bool
  | .error _ f => f
  | _ => false

/-! ### Settings-sync handler (source lines 589-604)

The `player.syncsettings` subscription: each field of the mirror is updated
only when the incoming value differs, and then `emitSettingsUpdate` is called
unconditionally with the mirror. -/

/-- The `player.syncsettings` handler: given the current mirror and the
incoming settings, returns the new mirror and the emitted events. -/
def onSyncSettings (mirror incoming : GameSettings) : GameSettings × List DomainEvent :=
  let m1 :=
    if incoming.crewmateVision ≠ mirror.crewmateVision then
      { mirror with crewmateVision := incoming.crewmateVision }
    else mirror
  let m2 :=
    if incoming.map ≠ m1.map then
      { m1 with map := incoming.map }
    else m1
  (m2, [DomainEvent.settingsUpdate m2])

/-! ### Murder handler (source lines 673-681) -/

/-- Per-player shared data (`player.data`): name and colour. -/
structure PlayerGameData where
  name : String
  color : Int
deriving DecidableEq, Repr

/-- A player entity as seen by the handlers: client id plus optional shared
data. -/
structure PlayerHandle where
  id : Nat
  data : Option PlayerGameData
deriving DecidableEq, Repr

/-- The `player.murder` handler: returns the emitted events and the number of
warning log lines.  `if (victim && victim.data)` guards the emission. -/
def onMurder (victim : Option PlayerHandle) : List DomainEvent × Nat :=
  match victim with
  | some v =>
    match v.data with
    | some d => ([DomainEvent.playerFlags d.name PlayerFlagKind.IsDead true], 0)
    | none => ([], 1)
  | none => ([], 1)

/-! ### destroy (source lines 945-957) -/

/-- The slice of backend state that `destroy()` touches: the `destroyed`
flag, whether `this.client` is set, and whether that client has a live
`socket`. -/
structure DestroyState where
  destroyed : Bool
  clientPresent : Bool
  clientSocket : Bool
deriving DecidableEq, Repr

/-- Side effects performed by `destroy()`. -/
inductive DestroyAction where
  | removeListeners
  | disconnectClient
deriving DecidableEq, Repr

/-- `destroy()`: returns immediately when already destroyed; otherwise, when
a client with a live socket exists, removes its listeners, disconnects it and
clears the handle; in every non-destroyed case it finally sets the
`destroyed` flag. -/
def destroy (s : DestroyState) : DestroyState × List DestroyAction :=
  if s.destroyed then (s, [])
  else if s.clientPresent && s.clientSocket then
    ({ destroyed := true, clientPresent := false, clientSocket := false },
      [DestroyAction.removeListeners, DestroyAction.disconnectClient])
  else ({ s with destroyed := true }, [])

/-! ### Auth-token acquisition (source lines 372-429)

`getAuthToken` spawns the external GetAuthToken helper; it resolves when the
helper prints a token, rejects on a process error, and rejects after a fixed
2000 ms timeout.  One invocation is modelled by its outcome. -/

/-- The timeout bound, in milliseconds, of one `getAuthToken` attempt
(source line 406: `sleep(2000)` racing the helper). -/
def authTokenTimeoutMs : Nat := 2000

/-- Outcome of one run of the external GetAuthToken helper. -/
inductive TokenAttempt where
  | ok (token : Nat)
  | procError (msg : String)
  | timedOut
deriving DecidableEq, Repr

/-- `getAuthToken(server)`: resolves with the scraped token, or rejects with
the process error or the timeout error. -/
def getAuthToken : TokenAttempt → Except String Nat
  | .ok t => Except.ok t
  | .procError m => Except.error m
  | .timedOut => Except.error "GetAuthToken took too long to get a token."

/-- Result of `tryGetAuthToken`: the token returned to the caller, the number
of attempts performed, the number of per-failure log lines (source line 420),
and whether the final using-0 log line was reached (source line 425). -/
structure TokenResult where
  token : Nat
  attempts : Nat
  failLogs : Nat
  exhausted : Bool
deriving DecidableEq, Repr

/-- `tryGetAuthToken(ip, cur_attempt)`: tries `getAuthToken`; each rejection
is caught and logged, `remaining = 5 - cur_attempt` after incrementing, and
the call recurses while `remaining` is nonzero, returning the sentinel `0`
once it is.  The subtraction is the JS integer subtraction; on the reachable
domain (the function is only ever entered with `cur_attempt = 0`) it
coincides with Nat subtraction.  It never rejects. -/
def tryGetAuthToken (oracle : Nat → TokenAttempt) (cur_attempt : Nat) : TokenResult :=
  match getAuthToken (oracle cur_attempt) with
  | .ok t => { token := t, attempts := 1, failLogs := 0, exhausted := false }
  | .error _ =>
    if h : 5 - (cur_attempt + 1) ≠ 0 then
      let r := tryGetAuthToken oracle (cur_attempt + 1)
      { token := r.token, attempts := r.attempts + 1, failLogs := r.failLogs + 1,
        exhausted := r.exhausted }
    else
      { token := 0, attempts := 1, failLogs := 1, exhausted := true }
termination_by 5 - cur_attempt
decreasing_by
  simp_wf
  omega

/-! ### joinGame (source lines 136-203)

One handshake attempt: send the join request, wait for the first matching
payload among join-error / redirect / joined, and act on it.  The sequence of
payloads the server answers with is supplied as a script; `dmsg` is the
external `DisconnectMessages` table. -/

/-- Server answer to a join request. -/
inductive JoinPayload where
  | joinError (reason : Nat)
  | redirect (ip : String) (port : Nat)
  | joined (code : Nat)
deriving DecidableEq, Repr

/-- Calls `joinGame` makes on the protocol client and the token service. -/
inductive ClientAction where
  | sendJoin (code : Nat)
  | disconnectClient
  | getToken (ip : String) (port : Nat)
  | connect (ip : String) (port : Nat)
  | spawnSelf
deriving DecidableEq, Repr

/-- Result of a `joinGame` call. -/
inductive JoinOutcome where
  | threw (msg : String)
  | ok (code : Nat)
  | noResponse
deriving DecidableEq, Repr

/-- `joinGame(code, doSpawn)` from the join-request send onwards: a
join-error payload throws with the protocol reason, a redirect payload
disconnects, re-acquires a token for the redirect endpoint, reconnects there
and retries the join, and a joined payload spawns the local actor when
requested and returns the joined code.  An empty script means the client is
still awaiting a payload. -/
def joinGame (dmsg : Nat → String) (doSpawn : Bool) (code : Nat) :
    List JoinPayload → JoinOutcome × List ClientAction
  | [] => (JoinOutcome.noResponse, [ClientAction.sendJoin code])
  | p :: rest =>
    match p with
    | .joinError reason =>
      (JoinOutcome.threw
        ("Join error: Failed to join game, code: " ++ toString reason
          ++ " (Message: " ++ dmsg reason ++ ")"),
        [ClientAction.sendJoin code])
    | .redirect ip port =>
      let r := joinGame dmsg doSpawn code rest
      (r.1,
        [ClientAction.sendJoin code, ClientAction.disconnectClient,
          ClientAction.getToken ip port, ClientAction.connect ip port] ++ r.2)
    | .joined c =>
      (JoinOutcome.ok c,
        [ClientAction.sendJoin code] ++ (if doSpawn then [ClientAction.spawnSelf] else []))

/-! ### State cache capture and reattach (source lines 304-347)

Entities are keyed by JS numbers (negative ids exist, e.g. the global object
at -2), so keys are integers.  The owning-session back-reference
(`object.room = this.client`) is modelled by a session identifier. -/

/-- A networked entity: its key data plus the owning-session back-reference
(`room`), modelled as a session id. -/
structure Entity where
  ownerid : Int
  room : Nat
deriving DecidableEq, Repr

/-- JS `Map.set`: replace in place when the key exists, append otherwise. -/
def mapSet (m : List (Int × Entity)) (k : Int) (v : Entity) : List (Int × Entity) :=
  if m.any (fun p => p.1 = k) then
    m.map (fun p => if p.1 = k then (k, v) else p)
  else m ++ [(k, v)]

/-- JS `Map.get`. -/
def mapGet (m : List (Int × Entity)) (k : Int) : Option Entity :=
  (m.find? (fun p => p.1 = k)).map (fun p => p.2)

/-- JS array index assignment `a[i] = v`: in range it overwrites; past the
end it pads the array with holes and appends. -/
def listSet (l : List (Option Entity)) (i : Nat) (v : Entity) : List (Option Entity) :=
  if i < l.length then l.set i (some v)
  else l ++ List.replicate (i - l.length) none ++ [some v]

/-- The player / component reattach loops of `doJoin` (source lines 304-318):
both iterate a cached map, skip falsy entries (`if (!object) continue`),
rebind `room` to the new session and `Map.set` the entity under its original
key. -/
def reattachMap (newRoom : Nat) :
    List (Int × Option Entity) → List (Int × Entity) → List (Int × Entity)
  | [], m => m
  | (_, none) :: rest, m => reattachMap newRoom rest m
  | (k, some e) :: rest, m => reattachMap newRoom rest (mapSet m k { e with room := newRoom })

/-- The room-singleton reattach loop of `doJoin` (source lines 320-328),
processing the cached array by ascending index, skipping null holes. -/
def reattachComponentsGo (newRoom : Nat) :
    List (Option Entity) → Nat → List (Option Entity) → List (Option Entity)
  | [], _, tgt => tgt
  | none :: rest, i, tgt => reattachComponentsGo newRoom rest (i + 1) tgt
  | some e :: rest, i, tgt =>
    reattachComponentsGo newRoom rest (i + 1) (listSet tgt i { e with room := newRoom })

/-- Entry point for the singleton-list reattach loop. -/
def reattachComponents (newRoom : Nat) (cache tgt : List (Option Entity)) :
    List (Option Entity) :=
  reattachComponentsGo newRoom cache 0 tgt

/-- Number of non-hole entries in a singleton list. -/
def countSome (l : List (Option Entity)) : Nat := (l.filter Option.isSome).length

/-- Number of non-hole entries in a cached map. -/
def countSomePairs (l : List (Int × Option Entity)) : Nat :=
  (l.filter (fun p => p.2.isSome)).length

/-- `resetObjectCaches` (source lines 340-347): partitions the current
registries into players excluding self and the global object, components not
owned by self, and the singleton list. -/
def resetObjectCaches (clientid : Int) (objects netobjects : List (Int × Entity))
    (components : List (Option Entity)) :
    List (Int × Option Entity) × List (Int × Option Entity) × List (Option Entity) :=
  ((objects.filter (fun p => p.1 ≠ clientid ∧ p.1 > 0)).map (fun p => (p.1, some p.2)),
    (netobjects.filter (fun p => p.2.ownerid ≠ clientid)).map (fun p => (p.1, some p.2)),
    components)

/-! ### initialSpawn (source lines 836-943) and doJoin (source lines 205-338)

The asynchronous outcome of each attempt is supplied by an oracle indexed by
the attempt counter; every other step of the two functions is transcribed. -/

/-- Warmup failure outcome set (source enum, lines 67-74). -/
inductive ConnectionErrorCode where
  | None
  | NoClient
  | FailedToConnect
  | TimedOut
  | GameNotFound
  | FailedToJoin
deriving DecidableEq, Repr

/-- Outcome of the asynchronous steps of one `initialSpawn` run. -/
inductive WarmupStep where
  | noClient
  | connectThrew
  | identifyTimedOut
  | joinTimedOut
  | joinThrewNotFound
  | joinThrewOther
  | noCode
  | spawnsTimedOut
  | settingsNull
  | ok (settings : GameSettings) (host : Option String)
      (spawnColors lobbyColors : List (String × Int))
deriving DecidableEq, Repr

def amongUsServersMsg : String :=
  "Couldn\x27t connect to the Among Us servers, the servers may be full. Try a different region or try again later."

def timedOutServersMsg : String := "Timed out while connecting to servers."

def noSpawnsSettingsMsg : String :=
  "Did not recieve players and settings, please restart your Among Us lobby, or wait a few minutes and try again."

def noGameSettingsMsg : String :=
  "Did not recieve game settings, please restart your Among Us lobby, or wait a few minutes and try again."

/-- `initialSpawn(isFinal)`: maps the outcome of its asynchronous steps to a
`ConnectionErrorCode` plus the events it emits itself.  The connect / identify
catch emits a fatal error unconditionally (line 855); the identify timeout,
join timeout, and spawn / settings waits emit fatal errors only when
`isFinal` (lines 850, 868, 893, 905).  On success it emits the first
SettingsUpdate, the host name when present, and player colours from the
GameData spawn and the lobby loop. -/
def initialSpawn (isFinal : Bool) :
    WarmupStep → ConnectionErrorCode × List DomainEvent
  | .noClient => (ConnectionErrorCode.NoClient, [])
  | .connectThrew => (ConnectionErrorCode.FailedToConnect, [DomainEvent.error amongUsServersMsg true])
  | .identifyTimedOut =>
    (ConnectionErrorCode.TimedOut, if isFinal then [DomainEvent.error amongUsServersMsg true] else [])
  | .joinTimedOut =>
    (ConnectionErrorCode.TimedOut, if isFinal then [DomainEvent.error timedOutServersMsg true] else [])
  | .joinThrewNotFound => (ConnectionErrorCode.GameNotFound, [])
  | .joinThrewOther => (ConnectionErrorCode.FailedToJoin, [])
  | .noCode => (ConnectionErrorCode.FailedToJoin, [])
  | .spawnsTimedOut =>
    (ConnectionErrorCode.TimedOut, if isFinal then [DomainEvent.error noSpawnsSettingsMsg true] else [])
  | .settingsNull =>
    (ConnectionErrorCode.TimedOut, if isFinal then [DomainEvent.error noGameSettingsMsg true] else [])
  | .ok s host spawnColors lobbyColors =>
    (ConnectionErrorCode.None,
      spawnColors.map (fun p => DomainEvent.playerColor p.1 p.2)
        ++ [DomainEvent.settingsUpdate s]
        ++ (host.map DomainEvent.hostChange).toList
        ++ lobbyColors.map (fun p => DomainEvent.playerColor p.1 p.2))

/-- Outcome of the asynchronous steps of the rejoin portion of one `doJoin`
iteration: the connect / identify block, then `joinGame`. -/
inductive RejoinStep where
  | connectThrew (msg : String)
  | joinThrew (msg : String)
  | ok (host : Option String)
deriving DecidableEq, Repr

/-- Oracle entry for one attempt: the warmup outcome (used when the caches
are missing) and the rejoin outcome. -/
structure IterOutcome where
  warmup : WarmupStep
  rejoin : RejoinStep
deriving DecidableEq, Repr

/-- The supervisor-visible state `doJoin` reads and writes. -/
structure SupState where
  destroyed : Bool
  hasClient : Bool
  hasCaches : Bool
  server : Nat
  masterLen : Nat
deriving DecidableEq, Repr

/-- Result of a `doJoin` run: the returned boolean, the emitted events, the
final state, the `isFinal` argument of every `initialSpawn` invocation, and
the number of iterations that passed the attempt guard. -/
structure DoJoinResult where
  ok : Bool
  events : List DomainEvent
  state : SupState
  spawnCalls : List Bool
  iters : Nat
deriving DecidableEq, Repr

def couldNotJoinAfterMsg (maxA : Nat) : String :=
  "Couldn\x27t join the game after " ++ toString maxA
    ++ " attempts, make sure that the game hasn\x27t started and there is a spot for the client."

def gameNotFoundMsg : String :=
  "Couldn\x27t find the game, make sure that you entered the code correctly and you are using the correct region."

def couldNotJoinMsg : String :=
  "Couldn\x27t join the game, make sure that the game hasn\x27t started and there is a spot for the client."

def connectAfterAttemptsMsg (maxA : Nat) : String :=
  "Couldn\x27t connect to the server after " ++ toString maxA ++ " attempts."

def connectRetryMoreTimeMsg (remaining : Nat) : String :=
  "Couldn\x27t connect to the server. Retrying " ++ toString remaining
    ++ " more time " ++ (if remaining = 1 then "" else "s") ++ "."

def serverRetryTimesMsg (remaining : Nat) : String :=
  "Couldn\x27t connect to the server. Retrying " ++ toString remaining ++ " more times."

/-- The message tested by `err.message.includes(...)` in the rejoin join
catch (source line 286). -/
def notFoundNeedle : String := "Could not find the game you\x27re looking for."

/-- JS `String.prototype.includes`. -/
def strIncludes (hay needle : String) : Bool :=
  decide (List.IsInfix needle.toList hay.toList)

/-- Result of the rejoin portion of one iteration: either a final result or
an instruction to recurse with the attempt counter incremented. -/
inductive PhaseOut where
  | done (ok : Bool) (events : List DomainEvent) (s : SupState)
  | retry (events : List DomainEvent) (s : SupState)
deriving DecidableEq, Repr

/-- The rejoin portion of a `doJoin` iteration (source lines 259-337): a
connect / identify throw rotates the endpoint and retries; a `joinGame` throw
whose message contains the not-found needle returns false with no emission,
any other throw retries without rotating; success reattaches the caches and
emits the host name when the host has data. -/
def rejoinPhase (max_attempts attempt : Nat) (s : SupState) : RejoinStep → PhaseOut
  | .connectThrew _ =>
    PhaseOut.retry [DomainEvent.error (serverRetryTimesMsg (max_attempts - (attempt + 1))) false]
      { s with server := (s.server + 1) % s.masterLen }
  | .joinThrew msg =>
    if strIncludes msg notFoundNeedle then
      PhaseOut.done false [] s
    else
      PhaseOut.retry
        [DomainEvent.error (msg ++ ". Retrying " ++ toString (max_attempts - (attempt + 1)) ++ " more times.") false]
        s
  | .ok host =>
    if s.hasClient then
      PhaseOut.done true ((host.map DomainEvent.hostChange).toList) s
    else
      PhaseOut.done false [] { s with destroyed := true, hasClient := false }

/-- `doJoin(max_attempts, attempt)` (source lines 205-338).  The reattach
loops run by the success branch are the `reattachMap` / `reattachComponents`
functions above; here the caches are tracked by presence, which is what the
control flow reads. -/
def doJoin (oracle : Nat → IterOutcome) (max_attempts attempt : Nat) (s : SupState) :
    DoJoinResult :=
  if s.destroyed then
    { ok := false, events := [], state := s, spawnCalls := [], iters := 0 }
  else if h : max_attempts ≤ attempt then
    { ok := false, events := [DomainEvent.error (couldNotJoinAfterMsg max_attempts) true],
      state := s, spawnCalls := [], iters := 0 }
  else
    let s0 := { s with hasClient := true }
    let step := oracle attempt
    if s0.hasCaches then
      if s0.destroyed then
        { ok := false, events := [], state := s0, spawnCalls := [], iters := 1 }
      else
        match rejoinPhase max_attempts attempt s0 step.rejoin with
        | .done okr evs s1 =>
          { ok := okr, events := evs, state := s1, spawnCalls := [], iters := 1 }
        | .retry evs s1 =>
          let r := doJoin oracle max_attempts (attempt + 1) s1
          { ok := r.ok, events := evs ++ r.events, state := r.state,
            spawnCalls := r.spawnCalls, iters := 1 + r.iters }
    else
      let isFinal := decide (max_attempts ≤ attempt)
      let w := initialSpawn isFinal step.warmup
      if w.1 = ConnectionErrorCode.GameNotFound then
        { ok := false, events := w.2 ++ [DomainEvent.error gameNotFoundMsg true],
          state := s0, spawnCalls := [isFinal], iters := 1 }
      else if w.1 = ConnectionErrorCode.FailedToJoin then
        { ok := false, events := w.2 ++ [DomainEvent.error couldNotJoinMsg true],
          state := s0, spawnCalls := [isFinal], iters := 1 }
      else if w.1 ≠ ConnectionErrorCode.None then
        let s1 := { s0 with server := (s0.server + 1) % s0.masterLen }
        let remaining := max_attempts - (attempt + 1)
        let ev :=
          if remaining = 0 then DomainEvent.error (connectAfterAttemptsMsg max_attempts) false
          else DomainEvent.error (connectRetryMoreTimeMsg remaining) false
        let r := doJoin oracle max_attempts (attempt + 1) s1
        { ok := r.ok, events := w.2 ++ [ev] ++ r.events, state := r.state,
          spawnCalls := isFinal :: r.spawnCalls, iters := 1 + r.iters }
      else
        let s2 := { s0 with hasCaches := true }
        if s2.destroyed then
          { ok := false, events := w.2, state := s2, spawnCalls := [isFinal], iters := 1 }
        else
          match rejoinPhase max_attempts attempt s2 step.rejoin with
          | .done okr evs s1 =>
            { ok := okr, events := w.2 ++ evs, state := s1, spawnCalls := [isFinal], iters := 1 }
          | .retry evs s1 =>
            let r := doJoin oracle max_attempts (attempt + 1) s1
            { ok := r.ok, events := w.2 ++ evs ++ r.events, state := r.state,
              spawnCalls := isFinal :: r.spawnCalls, iters := 1 + r.iters }
termination_by max_attempts - attempt
decreasing_by
  all_goals
    simp_wf
    omega

/-! ### player.sethost handler (source lines 524-553) -/

/-- Result of one `player.sethost` notification. -/
structure SetHostResult where
  events : List DomainEvent
  state : SupState
  rejoinRuns : Nat
  warned : Bool
deriving DecidableEq, Repr

/-- The `player.sethost` handler: nothing on a missing host or client; when
the new host is the backend itself it either tears down permanently (sole
remaining participant) or runs one disconnect-with-snapshot plus `doJoin`
rejoin (destroying on rejoin failure); otherwise it emits HostChange when the
host has data and warns when not. -/
def onSetHost (oracle : Nat → IterOutcome) (clientid : Nat) (playersSize : Nat)
    (host : Option PlayerHandle) (s : SupState) : SetHostResult :=
  match host with
  | none => { events := [], state := s, rejoinRuns := 0, warned := false }
  | some h =>
    if ¬ s.hasClient then
      { events := [], state := s, rejoinRuns := 0, warned := false }
    else if h.id = clientid then
      if playersSize = 1 then
        { events := [], state := { s with destroyed := true }, rejoinRuns := 0, warned := false }
      else
        let s1 := { s with hasCaches := true }
        let r := doJoin oracle 5 0 s1
        { events := r.events,
          state := if r.ok then r.state else { r.state with destroyed := true },
          rejoinRuns := 1, warned := false }
    else
      match h.data with
      | some d =>
        { events := [DomainEvent.hostChange d.name], state := s, rejoinRuns := 0, warned := false }
      | none => { events := [], state := s, rejoinRuns := 0, warned := true }

/-! ### Concrete fixtures used to evaluate the models -/

/-- True on the outcomes on which `getAuthToken` rejects. -/
def tokenFailed : TokenAttempt → Bool
  | .ok _ => false
  | _ => true

/-- A fresh supervisor state: two endpoints, no client, no caches. -/
def stFresh : SupState :=
  { destroyed := false, hasClient := false, hasCaches := false, server := 0, masterLen := 2 }

/-- A warmed-up supervisor state: two endpoints, client and caches present. -/
def stCached : SupState :=
  { destroyed := false, hasClient := true, hasCaches := true, server := 0, masterLen := 2 }

/-- Oracle where every identify wait times out during warmup. -/
def oracleTimeouts : Nat → IterOutcome :=
  fun _ => { warmup := WarmupStep.identifyTimedOut, rejoin := RejoinStep.ok none }

/-- Oracle whose first rejoin join attempt throws a generic error and whose
second succeeds. -/
def oracleJoinFullThenOk : Nat → IterOutcome :=
  fun k =>
    if k = 0 then { warmup := WarmupStep.noClient, rejoin := RejoinStep.joinThrew "Game is full" }
    else { warmup := WarmupStep.noClient, rejoin := RejoinStep.ok none }

/-- Oracle whose first warmup connect throws and whose second attempt
completes warmup and rejoin. -/
def oracleConnectFailThenOk : Nat → IterOutcome :=
  fun k =>
    if k = 0 then { warmup := WarmupStep.connectThrew, rejoin := RejoinStep.ok (some "Alice") }
    else
      { warmup := WarmupStep.ok { map := 0, crewmateVision := 1 } none [] [],
        rejoin := RejoinStep.ok (some "Alice") }

/-- Oracle whose rejoin succeeds immediately with a host that has data. -/
def oracleRejoinAlice : Nat → IterOutcome :=
  fun _ => { warmup := WarmupStep.noClient, rejoin := RejoinStep.ok (some "Alice") }

/-- Warmup outcomes that return `TimedOut` or `NoClient`: the failure classes
whose only report at a non-final attempt is the fatal=false retry message of
`doJoin` itself. -/
def timeoutClass : WarmupStep → Bool
  | .noClient => true
  | .identifyTimedOut => true
  | .joinTimedOut => true
  | .spawnsTimedOut => true
  | .settingsNull => true
  | _ => false

/-- A supervisor state with a client but no caches yet. -/
def stClientNoCaches : SupState :=
  { destroyed := false, hasClient := true, hasCaches := false, server := 0, masterLen := 2 }

/-- Oracle whose warmup join always reports that the game was not found. -/
def oracleGameNotFound : Nat → IterOutcome :=
  fun _ => { warmup := WarmupStep.joinThrewNotFound, rejoin := RejoinStep.ok none }

/-- The fatal=false retry reports `doJoin` emits from attempt `a` on when
every warmup attempt fails without its own emission (source lines 244-251). -/
def warmupFailEvents (maxA : Nat) : Nat → List DomainEvent
  | a =>
    if h : maxA ≤ a then []
    else
      (if maxA - (a + 1) = 0 then DomainEvent.error (connectAfterAttemptsMsg maxA) false
        else DomainEvent.error (connectRetryMoreTimeMsg (maxA - (a + 1))) false)
        :: warmupFailEvents maxA (a + 1)
termination_by a => maxA - a
decreasing_by
  simp_wf
  omega

end AUP

namespace AUP

/-! ### Theorems -/

/-- C1 (amended): every settings-sync notification sets the mirror to the
incoming {map, crewmateVision} pair (writing each field only when it
differs) and always emits exactly one SettingsUpdate carrying the new
values — also when neither field changed, so the zero-event case of the
original claim does not exist. -/
theorem onSyncSettings_eq (m i : GameSettings) :
    onSyncSettings m i = (i, [DomainEvent.settingsUpdate i]) := by
  unfold onSyncSettings
  by_cases h1 : i.crewmateVision = m.crewmateVision <;>
    by_cases h2 : i.map = m.map <;>
      simp [h1, h2] <;>
        cases m <;> cases i <;> simp_all

/-- C1 counterexample: a settings-sync whose map and crewmateVision both
equal the current mirror still emits one SettingsUpdate event, not zero. -/
theorem onSyncSettings_unchanged_still_emits :
    onSyncSettings { map := 0, crewmateVision := 1 } { map := 0, crewmateVision := 1 }
      = ({ map := 0, crewmateVision := 1 },
          [DomainEvent.settingsUpdate { map := 0, crewmateVision := 1 }]) := by
  rfl

/-- C8: a murder notification with a victim that has data emits exactly one
PlayerFlags event with the victim name, IsDead and true, and no warning; a
victim without data, or a missing victim, emits zero events and exactly one
warning log. -/
theorem onMurder_contract :
    (∀ (id : Nat) (d : PlayerGameData),
        onMurder (some { id := id, data := some d })
          = ([DomainEvent.playerFlags d.name PlayerFlagKind.IsDead true], 0)) ∧
    (∀ (id : Nat), onMurder (some { id := id, data := none }) = ([], 1)) ∧
    onMurder none = ([], 1) :=
  ⟨fun _ _ => rfl, fun _ => rfl, rfl⟩

/-- C9: destroy is idempotent — after a first call the destroyed flag is
set, a second call changes nothing and performs no action; the first call on
a live session (client with socket) removes listeners, disconnects, and
clears the client handle. -/
theorem destroy_idempotent (s : DestroyState) :
    (destroy (destroy s).1).1 = (destroy s).1 ∧
    (destroy (destroy s).1).2 = [] ∧
    (destroy s).1.destroyed = true ∧
    (s.destroyed = false → s.clientPresent = true → s.clientSocket = true →
      (destroy s).2 = [DestroyAction.removeListeners, DestroyAction.disconnectClient] ∧
      (destroy s).1.clientPresent = false) := by
  obtain ⟨d, p, k⟩ := s
  cases d <;> cases p <;> cases k <;> simp [destroy]

/-- C9 witness: the contract evaluated on a live non-destroyed session. -/
theorem destroy_idempotent_witness :
    (destroy { destroyed := false, clientPresent := true, clientSocket := true }).2
        = [DestroyAction.removeListeners, DestroyAction.disconnectClient] ∧
    (destroy { destroyed := false, clientPresent := true, clientSocket := true }).1.clientPresent
        = false :=
  (destroy_idempotent { destroyed := false, clientPresent := true, clientSocket := true }).2.2.2
    rfl rfl rfl

/-- C6: the three terminal outcomes of one `joinGame` handshake attempt — a
join-error payload throws with the protocol reason, a redirect payload
disconnects, re-acquires a token for the redirect endpoint, reconnects there
and retries the join on the remaining script, and a joined payload returns
the joined code, spawning the local actor exactly when requested. -/
theorem joinGame_terminal_outcomes (dmsg : Nat → String) (doSpawn : Bool) (code : Nat) :
    (∀ (reason : Nat) (rest : List JoinPayload),
        joinGame dmsg doSpawn code (JoinPayload.joinError reason :: rest)
          = (JoinOutcome.threw
              ("Join error: Failed to join game, code: " ++ toString reason
                ++ " (Message: " ++ dmsg reason ++ ")"),
              [ClientAction.sendJoin code])) ∧
    (∀ (ip : String) (port : Nat) (rest : List JoinPayload),
        joinGame dmsg doSpawn code (JoinPayload.redirect ip port :: rest)
          = ((joinGame dmsg doSpawn code rest).1,
              [ClientAction.sendJoin code, ClientAction.disconnectClient,
                ClientAction.getToken ip port, ClientAction.connect ip port]
                ++ (joinGame dmsg doSpawn code rest).2)) ∧
    (∀ (c : Nat) (rest : List JoinPayload),
        joinGame dmsg doSpawn code (JoinPayload.joined c :: rest)
          = (JoinOutcome.ok c,
              [ClientAction.sendJoin code]
                ++ (if doSpawn then [ClientAction.spawnSelf] else []))) :=
  ⟨fun _ _ => rfl, fun _ _ _ => rfl, fun _ _ => rfl⟩

/-- Attempt counter bound: entered below the budget, `tryGetAuthToken`
performs at most `5 - cur_attempt` attempts. -/
theorem tryGetAuthToken_attempts_le (oracle : Nat → TokenAttempt) :
    ∀ (n cur : Nat), 5 - cur ≤ n → cur < 5 →
      (tryGetAuthToken oracle cur).attempts ≤ 5 - cur := by
  intro n
  induction n with
  | zero => intro cur hn hc; omega
  | succ n ih =>
    intro cur hn hc
    rw [tryGetAuthToken]
    cases ho : oracle cur with
    | ok t =>
      simp [getAuthToken]
      omega
    | procError m =>
      simp only [getAuthToken]
      by_cases h5 : 5 - (cur + 1) ≠ 0
      · rw [dif_pos h5]
        have := ih (cur + 1) (by omega) (by omega)
        simp only []
        omega
      · rw [dif_neg h5]
        simp only []
        omega
    | timedOut =>
      simp only [getAuthToken]
      by_cases h5 : 5 - (cur + 1) ≠ 0
      · rw [dif_pos h5]
        have := ih (cur + 1) (by omega) (by omega)
        simp only []
        omega
      · rw [dif_neg h5]
        simp only []
        omega

/-- When every helper run fails, the whole budget is used and the default
token is returned. -/
theorem tryGetAuthToken_all_fail (oracle : Nat → TokenAttempt)
    (hf : ∀ k, tokenFailed (oracle k) = true) :
    ∀ (n cur : Nat), 5 - cur ≤ n → cur < 5 →
      tryGetAuthToken oracle cur
        = { token := 0, attempts := 5 - cur, failLogs := 5 - cur, exhausted := true } := by
  intro n
  induction n with
  | zero => intro cur hn hc; omega
  | succ n ih =>
    intro cur hn hc
    rw [tryGetAuthToken]
    cases ho : oracle cur with
    | ok t =>
      have := hf cur
      rw [ho] at this
      simp [tokenFailed] at this
    | procError m =>
      simp only [getAuthToken]
      by_cases h5 : 5 - (cur + 1) ≠ 0
      · rw [dif_pos h5]
        simp only [ih (cur + 1) (by omega) (by omega), TokenResult.mk.injEq]
        exact ⟨trivial, by omega, by omega, trivial⟩
      · rw [dif_neg h5]
        simp only [TokenResult.mk.injEq]
        exact ⟨trivial, by omega, by omega, trivial⟩
    | timedOut =>
      simp only [getAuthToken]
      by_cases h5 : 5 - (cur + 1) ≠ 0
      · rw [dif_pos h5]
        simp only [ih (cur + 1) (by omega) (by omega), TokenResult.mk.injEq]
        exact ⟨trivial, by omega, by omega, trivial⟩
      · rw [dif_neg h5]
        simp only [TokenResult.mk.injEq]
        exact ⟨trivial, by omega, by omega, trivial⟩

/-- C3: token acquisition performs at most 5 attempts in total; when every
attempt fails (process error or the 2 s timeout), it performs exactly 5
attempts, logs each failure, and returns the sentinel token 0 to the caller
instead of propagating the rejection. -/
theorem tryGetAuthToken_contract (oracle : Nat → TokenAttempt) :
    (tryGetAuthToken oracle 0).attempts ≤ 5 ∧
    ((∀ k, tokenFailed (oracle k) = true) →
      tryGetAuthToken oracle 0
        = { token := 0, attempts := 5, failLogs := 5, exhausted := true }) :=
  ⟨tryGetAuthToken_attempts_le oracle 5 0 (by omega) (by omega),
    fun hf => tryGetAuthToken_all_fail oracle hf 5 0 (by omega) (by omega)⟩

/-- C3 witness: the contract evaluated on the oracle where every helper run
times out. -/
theorem tryGetAuthToken_contract_witness :
    tryGetAuthToken (fun _ => TokenAttempt.timedOut) 0
      = { token := 0, attempts := 5, failLogs := 5, exhausted := true } :=
  (tryGetAuthToken_contract (fun _ => TokenAttempt.timedOut)).2 (fun _ => rfl)

/-! ### Branch equations for `doJoin` -/

theorem doJoin_destroyed (oracle : Nat → IterOutcome) (maxA a : Nat) (s : SupState)
    (h : s.destroyed = true) :
    doJoin oracle maxA a s
      = { ok := false, events := [], state := s, spawnCalls := [], iters := 0 } := by
  rw [doJoin]
  simp [h]

theorem doJoin_guard (oracle : Nat → IterOutcome) (maxA a : Nat) (s : SupState)
    (h : s.destroyed = false) (h2 : maxA ≤ a) :
    doJoin oracle maxA a s =
      { ok := false, events := [DomainEvent.error (couldNotJoinAfterMsg maxA) true],
        state := s, spawnCalls := [], iters := 0 } := by
  rw [doJoin]
  simp [h, h2]

theorem doJoin_cached_done (oracle : Nat → IterOutcome) (maxA a : Nat) (s : SupState)
    (h : s.destroyed = false) (h2 : ¬ maxA ≤ a) (h3 : s.hasCaches = true)
    (okr : Bool) (evs : List DomainEvent) (s1 : SupState)
    (hr : rejoinPhase maxA a { s with hasClient := true } (oracle a).rejoin
      = PhaseOut.done okr evs s1) :
    doJoin oracle maxA a s
      = { ok := okr, events := evs, state := s1, spawnCalls := [], iters := 1 } := by
  rw [doJoin]
  simp only [h, h2, h3]
  simp only [Bool.false_eq_true, if_false, dif_neg h2]
  rw [h, h3] at hr
  simp [h, h3, hr]

theorem doJoin_cached_retry (oracle : Nat → IterOutcome) (maxA a : Nat) (s : SupState)
    (h : s.destroyed = false) (h2 : ¬ maxA ≤ a) (h3 : s.hasCaches = true)
    (evs : List DomainEvent) (s1 : SupState)
    (hr : rejoinPhase maxA a { s with hasClient := true } (oracle a).rejoin
      = PhaseOut.retry evs s1) :
    doJoin oracle maxA a s =
      { ok := (doJoin oracle maxA (a + 1) s1).ok,
        events := evs ++ (doJoin oracle maxA (a + 1) s1).events,
        state := (doJoin oracle maxA (a + 1) s1).state,
        spawnCalls := (doJoin oracle maxA (a + 1) s1).spawnCalls,
        iters := 1 + (doJoin oracle maxA (a + 1) s1).iters } := by
  rw [doJoin]
  simp only [h, h2, h3]
  simp only [Bool.false_eq_true, if_false, dif_neg h2]
  rw [h, h3] at hr
  simp [h, h3, hr]

theorem doJoin_warmup_gnf (oracle : Nat → IterOutcome) (maxA a : Nat) (s : SupState)
    (h : s.destroyed = false) (h2 : ¬ maxA ≤ a) (h3 : s.hasCaches = false)
    (hw : (initialSpawn false (oracle a).warmup).1 = ConnectionErrorCode.GameNotFound) :
    doJoin oracle maxA a s =
      { ok := false,
        events := (initialSpawn false (oracle a).warmup).2
          ++ [DomainEvent.error gameNotFoundMsg true],
        state := { s with hasClient := true }, spawnCalls := [false], iters := 1 } := by
  rw [doJoin]
  simp only [h, h3]
  simp only [Bool.false_eq_true, if_false, dif_neg h2]
  simp only [decide_eq_false h2]
  simp [hw]

theorem doJoin_warmup_ftj (oracle : Nat → IterOutcome) (maxA a : Nat) (s : SupState)
    (h : s.destroyed = false) (h2 : ¬ maxA ≤ a) (h3 : s.hasCaches = false)
    (hw : (initialSpawn false (oracle a).warmup).1 = ConnectionErrorCode.FailedToJoin) :
    doJoin oracle maxA a s =
      { ok := false,
        events := (initialSpawn false (oracle a).warmup).2
          ++ [DomainEvent.error couldNotJoinMsg true],
        state := { s with hasClient := true }, spawnCalls := [false], iters := 1 } := by
  rw [doJoin]
  simp only [h, h3]
  simp only [Bool.false_eq_true, if_false, dif_neg h2]
  simp only [decide_eq_false h2]
  simp [hw]

theorem doJoin_warmup_retryable (oracle : Nat → IterOutcome) (maxA a : Nat) (s : SupState)
    (h : s.destroyed = false) (h2 : ¬ maxA ≤ a) (h3 : s.hasCaches = false)
    (hw1 : (initialSpawn false (oracle a).warmup).1 ≠ ConnectionErrorCode.GameNotFound)
    (hw2 : (initialSpawn false (oracle a).warmup).1 ≠ ConnectionErrorCode.FailedToJoin)
    (hw3 : (initialSpawn false (oracle a).warmup).1 ≠ ConnectionErrorCode.None) :
    doJoin oracle maxA a s =
      { ok := (doJoin oracle maxA (a + 1)
          { s with hasClient := true, server := (s.server + 1) % s.masterLen }).ok,
        events := (initialSpawn false (oracle a).warmup).2
          ++ [if maxA - (a + 1) = 0 then DomainEvent.error (connectAfterAttemptsMsg maxA) false
              else DomainEvent.error (connectRetryMoreTimeMsg (maxA - (a + 1))) false]
          ++ (doJoin oracle maxA (a + 1)
              { s with hasClient := true, server := (s.server + 1) % s.masterLen }).events,
        state := (doJoin oracle maxA (a + 1)
          { s with hasClient := true, server := (s.server + 1) % s.masterLen }).state,
        spawnCalls := false :: (doJoin oracle maxA (a + 1)
          { s with hasClient := true, server := (s.server + 1) % s.masterLen }).spawnCalls,
        iters := 1 + (doJoin oracle maxA (a + 1)
          { s with hasClient := true, server := (s.server + 1) % s.masterLen }).iters } := by
  rw [doJoin]
  simp only [h, h3]
  simp only [Bool.false_eq_true, if_false, dif_neg h2]
  simp only [decide_eq_false h2]
  simp [hw1, hw2, hw3]

theorem doJoin_warmup_ok_done (oracle : Nat → IterOutcome) (maxA a : Nat) (s : SupState)
    (h : s.destroyed = false) (h2 : ¬ maxA ≤ a) (h3 : s.hasCaches = false)
    (hw : (initialSpawn false (oracle a).warmup).1 = ConnectionErrorCode.None)
    (okr : Bool) (evs : List DomainEvent) (s1 : SupState)
    (hr : rejoinPhase maxA a { s with hasClient := true, hasCaches := true } (oracle a).rejoin
      = PhaseOut.done okr evs s1) :
    doJoin oracle maxA a s =
      { ok := okr, events := (initialSpawn false (oracle a).warmup).2 ++ evs,
        state := s1, spawnCalls := [false], iters := 1 } := by
  rw [doJoin]
  simp only [h, h3]
  simp only [Bool.false_eq_true, if_false, dif_neg h2]
  simp only [decide_eq_false h2]
  rw [h] at hr
  simp [hw, hr, h]

theorem doJoin_warmup_ok_retry (oracle : Nat → IterOutcome) (maxA a : Nat) (s : SupState)
    (h : s.destroyed = false) (h2 : ¬ maxA ≤ a) (h3 : s.hasCaches = false)
    (hw : (initialSpawn false (oracle a).warmup).1 = ConnectionErrorCode.None)
    (evs : List DomainEvent) (s1 : SupState)
    (hr : rejoinPhase maxA a { s with hasClient := true, hasCaches := true } (oracle a).rejoin
      = PhaseOut.retry evs s1) :
    doJoin oracle maxA a s =
      { ok := (doJoin oracle maxA (a + 1) s1).ok,
        events := (initialSpawn false (oracle a).warmup).2 ++ evs
          ++ (doJoin oracle maxA (a + 1) s1).events,
        state := (doJoin oracle maxA (a + 1) s1).state,
        spawnCalls := false :: (doJoin oracle maxA (a + 1) s1).spawnCalls,
        iters := 1 + (doJoin oracle maxA (a + 1) s1).iters } := by
  rw [doJoin]
  simp only [h, h3]
  simp only [Bool.false_eq_true, if_false, dif_neg h2]
  simp only [decide_eq_false h2]
  rw [h] at hr
  simp [hw, hr, h]

/-- Every `isFinal` argument recorded by any `doJoin` run is false. -/
theorem doJoin_spawnCalls_all_false (oracle : Nat → IterOutcome) (maxA : Nat) :
    ∀ (n a : Nat) (s : SupState), maxA - a ≤ n →
      ((doJoin oracle maxA a s).spawnCalls.all (fun b => !b)) = true := by
  intro n
  induction n with
  | zero =>
    intro a s hn
    cases hdes : s.destroyed with
    | true => rw [doJoin_destroyed oracle maxA a s hdes]; simp
    | false => rw [doJoin_guard oracle maxA a s hdes (by omega)]; simp
  | succ n ih =>
    intro a s hn
    cases hdes : s.destroyed with
    | true => rw [doJoin_destroyed oracle maxA a s hdes]; simp
    | false =>
      by_cases hle : maxA ≤ a
      · rw [doJoin_guard oracle maxA a s hdes hle]; simp
      · by_cases hca : s.hasCaches = true
        · cases hr : rejoinPhase maxA a { s with hasClient := true } (oracle a).rejoin with
          | done okr evs s1 =>
            rw [doJoin_cached_done oracle maxA a s hdes hle hca okr evs s1 hr]
            simp
          | retry evs s1 =>
            rw [doJoin_cached_retry oracle maxA a s hdes hle hca evs s1 hr]
            simp only []
            exact ih (a + 1) s1 (by omega)
        · have hca2 : s.hasCaches = false := by
            cases hcv : s.hasCaches
            · rfl
            · exact absurd hcv hca
          by_cases hgnf : (initialSpawn false (oracle a).warmup).1 = ConnectionErrorCode.GameNotFound
          · rw [doJoin_warmup_gnf oracle maxA a s hdes hle hca2 hgnf]; simp
          · by_cases hftj : (initialSpawn false (oracle a).warmup).1 = ConnectionErrorCode.FailedToJoin
            · rw [doJoin_warmup_ftj oracle maxA a s hdes hle hca2 hftj]; simp
            · by_cases hnone : (initialSpawn false (oracle a).warmup).1 = ConnectionErrorCode.None
              · cases hr : rejoinPhase maxA a { s with hasClient := true, hasCaches := true }
                  (oracle a).rejoin with
                | done okr evs s1 =>
                  rw [doJoin_warmup_ok_done oracle maxA a s hdes hle hca2 hnone okr evs s1 hr]
                  simp
                | retry evs s1 =>
                  rw [doJoin_warmup_ok_retry oracle maxA a s hdes hle hca2 hnone evs s1 hr]
                  simp only [List.all_cons, Bool.not_false, Bool.true_and]
                  exact ih (a + 1) s1 (by omega)
              · rw [doJoin_warmup_retryable oracle maxA a s hdes hle hca2 hgnf hftj hnone]
                simp only [List.all_cons, Bool.not_false, Bool.true_and]
                exact ih (a + 1)
                  { s with hasClient := true, server := (s.server + 1) % s.masterLen } (by omega)

/-- C10: the `isFinal` argument `doJoin` passes to `initialSpawn` is false in
every reachable invocation, because `doJoin` returns before the call whenever
the attempt counter has reached the budget; consequently every
isFinal-guarded fatal emission inside `initialSpawn` (identify timeout, join
timeout, missing spawns, missing settings) emits nothing when invoked from
the supervisor loop. -/
theorem doJoin_initialSpawn_never_final :
    (∀ (oracle : Nat → IterOutcome) (maxA a : Nat) (s : SupState),
        ((doJoin oracle maxA a s).spawnCalls.all (fun b => !b)) = true) ∧
    (initialSpawn false WarmupStep.identifyTimedOut).2 = [] ∧
    (initialSpawn false WarmupStep.joinTimedOut).2 = [] ∧
    (initialSpawn false WarmupStep.spawnsTimedOut).2 = [] ∧
    (initialSpawn false WarmupStep.settingsNull).2 = [] :=
  ⟨fun oracle maxA a s =>
      doJoin_spawnCalls_all_false oracle maxA (maxA - a) a s (Nat.le_refl _),
    rfl, rfl, rfl, rfl⟩

/-- A timeout-class warmup failure emits nothing itself at a non-final
attempt and yields a code outside {None, GameNotFound, FailedToJoin}. -/
theorem timeoutClass_initialSpawn (w : WarmupStep) (h : timeoutClass w = true) :
    (initialSpawn false w).2 = [] ∧
    (initialSpawn false w).1 ≠ ConnectionErrorCode.GameNotFound ∧
    (initialSpawn false w).1 ≠ ConnectionErrorCode.FailedToJoin ∧
    (initialSpawn false w).1 ≠ ConnectionErrorCode.None := by
  cases w <;> simp [timeoutClass] at h <;> simp [initialSpawn]

/-- The retry reports in `warmupFailEvents` all carry fatal=false. -/
theorem warmupFailEvents_nonfatal (maxA : Nat) :
    ∀ (n a : Nat), maxA - a ≤ n → ∀ e ∈ warmupFailEvents maxA a, eventFatal e = false := by
  intro n
  induction n with
  | zero =>
    intro a hn e he
    rw [warmupFailEvents] at he
    rw [dif_pos (by omega : maxA ≤ a)] at he
    simp at he
  | succ n ih =>
    intro a hn e he
    rw [warmupFailEvents] at he
    by_cases hle : maxA ≤ a
    · rw [dif_pos hle] at he
      simp at he
    · rw [dif_neg hle] at he
      rcases List.mem_cons.mp he with h1 | h2
      · subst h1
        by_cases h0 : maxA - (a + 1) = 0 <;> simp [h0, eventFatal]
      · exact ih (a + 1) (by omega) e h2

/-- All-timeout runs of `doJoin`: exhaust the budget, rotate each attempt,
report fatal=false each time and fatal=true once at the very end. -/
theorem doJoin_timeout_go (oracle : Nat → IterOutcome) (maxA : Nat)
    (hw : ∀ k, timeoutClass (oracle k).warmup = true) :
    ∀ (n a : Nat) (s : SupState), maxA - a ≤ n → a < maxA →
      s.destroyed = false → s.hasCaches = false → 0 < s.masterLen →
      (doJoin oracle maxA a s).ok = false ∧
      (doJoin oracle maxA a s).iters = maxA - a ∧
      (doJoin oracle maxA a s).spawnCalls = List.replicate (maxA - a) false ∧
      (doJoin oracle maxA a s).state.server = (s.server + (maxA - a)) % s.masterLen ∧
      (doJoin oracle maxA a s).events
        = warmupFailEvents maxA a ++ [DomainEvent.error (couldNotJoinAfterMsg maxA) true] := by
  intro n
  induction n with
  | zero => intro a s hn ha hd hc hl; omega
  | succ n ih =>
    intro a s hn ha hd hc hl
    obtain ⟨hev, hgnf, hftj, hnone⟩ := timeoutClass_initialSpawn (oracle a).warmup (hw a)
    rw [doJoin_warmup_retryable oracle maxA a s hd (by omega) hc hgnf hftj hnone]
    rw [hev]
    by_cases hfin : a + 1 = maxA
    · rw [doJoin_guard oracle maxA (a + 1)
        { s with hasClient := true, server := (s.server + 1) % s.masterLen } hd (by omega)]
      have hone : maxA - a = 1 := by omega
      have hzero : maxA - (a + 1) = 0 := by omega
      refine ⟨rfl, by simp [hone], ?_, ?_, ?_⟩
      · simp [hone]
      · simp only []
        rw [hone]
      · simp only [hzero, if_pos rfl]
        rw [warmupFailEvents, dif_neg (by omega : ¬ maxA ≤ a), hzero]
        rw [warmupFailEvents, dif_pos (by omega : maxA ≤ a + 1)]
        simp
    · have hih := ih (a + 1)
        { s with hasClient := true, server := (s.server + 1) % s.masterLen }
        (by omega) (by omega) hd hc hl
      obtain ⟨i1, i2, i3, i4, i5⟩ := hih
      refine ⟨i1, ?_, ?_, ?_, ?_⟩
      · simp only []
        rw [i2]
        omega
      · simp only []
        rw [i3]
        rw [show maxA - a = (maxA - (a + 1)) + 1 from by omega]
        simp [List.replicate_succ]
      · simp only []
        rw [i4]
        simp only []
        rw [Nat.mod_add_mod]
        have : s.server + 1 + (maxA - (a + 1)) = s.server + (maxA - a) := by omega
        rw [this]
      · simp only []
        rw [i5]
        conv_rhs => rw [warmupFailEvents]
        rw [dif_neg (by omega : ¬ maxA ≤ a)]
        simp

/-- C2 (amended): when the caches are missing and every attempt fails with a
timeout-class warmup failure, `doJoin` performs exactly `max_attempts`
attempts, advances the endpoint index by 1 modulo the endpoint-set size
after each failure, reports each failure with fatal=false, and emits exactly
one fatal=true error after the last attempt has failed, returning false.
(Join-phase failures in the rejoin portion retry without advancing the
index, and a warmup connect failure additionally emits its own fatal=true
report, so the original unrestricted statement fails; see the
counterexample.) -/
theorem doJoin_timeout_exhaustion (oracle : Nat → IterOutcome) (maxA a : Nat) (s : SupState)
    (ha : a < maxA) (hd : s.destroyed = false) (hc : s.hasCaches = false)
    (hl : 0 < s.masterLen) (hw : ∀ k, timeoutClass (oracle k).warmup = true) :
    (doJoin oracle maxA a s).ok = false ∧
    (doJoin oracle maxA a s).iters = maxA - a ∧
    (doJoin oracle maxA a s).spawnCalls = List.replicate (maxA - a) false ∧
    (doJoin oracle maxA a s).state.server = (s.server + (maxA - a)) % s.masterLen ∧
    (doJoin oracle maxA a s).events
      = warmupFailEvents maxA a ++ [DomainEvent.error (couldNotJoinAfterMsg maxA) true] ∧
    (∀ e ∈ warmupFailEvents maxA a, eventFatal e = false) := by
  obtain ⟨h1, h2, h3, h4, h5⟩ :=
    doJoin_timeout_go oracle maxA hw (maxA - a) a s (Nat.le_refl _) ha hd hc hl
  exact ⟨h1, h2, h3, h4, h5, warmupFailEvents_nonfatal maxA (maxA - a) a (Nat.le_refl _)⟩

/-- C2 witness: five identify timeouts from a fresh two-endpoint state use
the whole default budget. -/
theorem doJoin_timeout_exhaustion_witness :
    (doJoin oracleTimeouts 5 0 stFresh).ok = false ∧
    (doJoin oracleTimeouts 5 0 stFresh).iters = 5 - 0 ∧
    (doJoin oracleTimeouts 5 0 stFresh).spawnCalls = List.replicate (5 - 0) false ∧
    (doJoin oracleTimeouts 5 0 stFresh).state.server
      = (stFresh.server + (5 - 0)) % stFresh.masterLen ∧
    (doJoin oracleTimeouts 5 0 stFresh).events
      = warmupFailEvents 5 0 ++ [DomainEvent.error (couldNotJoinAfterMsg 5) true] ∧
    (∀ e ∈ warmupFailEvents 5 0, eventFatal e = false) :=
  doJoin_timeout_exhaustion oracleTimeouts 5 0 stFresh (by omega) rfl rfl (by decide)
    (fun _ => rfl)

/-- C2 counterexample: a retryable join-phase failure (generic `joinGame`
throw during rejoin) is retried — the run needs two iterations — but the
endpoint index is not advanced, although the set has two endpoints. -/
theorem doJoin_join_failure_no_rotation :
    (doJoin oracleJoinFullThenOk 5 0 stCached).iters = 2 ∧
    (doJoin oracleJoinFullThenOk 5 0 stCached).ok = true ∧
    (doJoin oracleJoinFullThenOk 5 0 stCached).state.server = 0 ∧
    stCached.server = 0 ∧ stCached.masterLen = 2 := by
  have h1 : rejoinPhase 5 0 { stCached with hasClient := true } (oracleJoinFullThenOk 0).rejoin
      = PhaseOut.retry
          [DomainEvent.error "Game is full. Retrying 4 more times." false]
          { stCached with hasClient := true } := by
    rfl
  have e1 := doJoin_cached_retry oracleJoinFullThenOk 5 0 stCached rfl (by omega) rfl _ _ h1
  have h2 : rejoinPhase 5 (0 + 1)
        { ({ stCached with hasClient := true } : SupState) with hasClient := true }
        (oracleJoinFullThenOk (0 + 1)).rejoin
      = PhaseOut.done true [] { stCached with hasClient := true } := by
    rfl
  have e2 := doJoin_cached_done oracleJoinFullThenOk 5 (0 + 1)
    ({ stCached with hasClient := true }) rfl (by omega) rfl _ _ _ h2
  rw [e1, e2]
  exact ⟨rfl, rfl, rfl, rfl, rfl⟩

/-- C4 (amended): warmup failures are classified so that GameNotFound and
FailedToJoin produce a fatal=true report and stop the loop permanently, and
every other failure outcome triggers endpoint rotation plus attempt
decrement with a fatal=false retry report from `doJoin`; however, a connect
failure — although retried the same way — additionally emits its own
fatal=true report from inside `initialSpawn`, so it is not reported only
with fatal=false. -/
theorem initialSpawn_failure_classification :
    ((initialSpawn false WarmupStep.joinThrewNotFound).1 = ConnectionErrorCode.GameNotFound ∧
      (initialSpawn false WarmupStep.joinThrewOther).1 = ConnectionErrorCode.FailedToJoin ∧
      (initialSpawn false WarmupStep.connectThrew).1 = ConnectionErrorCode.FailedToConnect ∧
      (initialSpawn false WarmupStep.connectThrew).2
        = [DomainEvent.error amongUsServersMsg true]) ∧
    (∀ (oracle : Nat → IterOutcome) (maxA a : Nat) (s : SupState),
      s.destroyed = false → a < maxA → s.hasCaches = false →
      ((oracle a).warmup = WarmupStep.joinThrewNotFound →
        doJoin oracle maxA a s
          = { ok := false, events := [DomainEvent.error gameNotFoundMsg true],
              state := { s with hasClient := true }, spawnCalls := [false], iters := 1 }) ∧
      ((oracle a).warmup = WarmupStep.joinThrewOther →
        doJoin oracle maxA a s
          = { ok := false, events := [DomainEvent.error couldNotJoinMsg true],
              state := { s with hasClient := true }, spawnCalls := [false], iters := 1 }) ∧
      (timeoutClass (oracle a).warmup = true →
        doJoin oracle maxA a s =
          { ok := (doJoin oracle maxA (a + 1)
              { s with hasClient := true, server := (s.server + 1) % s.masterLen }).ok,
            events :=
              (if maxA - (a + 1) = 0 then DomainEvent.error (connectAfterAttemptsMsg maxA) false
                else DomainEvent.error (connectRetryMoreTimeMsg (maxA - (a + 1))) false)
              :: (doJoin oracle maxA (a + 1)
                  { s with hasClient := true, server := (s.server + 1) % s.masterLen }).events,
            state := (doJoin oracle maxA (a + 1)
              { s with hasClient := true, server := (s.server + 1) % s.masterLen }).state,
            spawnCalls := false :: (doJoin oracle maxA (a + 1)
              { s with hasClient := true, server := (s.server + 1) % s.masterLen }).spawnCalls,
            iters := 1 + (doJoin oracle maxA (a + 1)
              { s with hasClient := true, server := (s.server + 1) % s.masterLen }).iters }) ∧
      ((oracle a).warmup = WarmupStep.connectThrew →
        doJoin oracle maxA a s =
          { ok := (doJoin oracle maxA (a + 1)
              { s with hasClient := true, server := (s.server + 1) % s.masterLen }).ok,
            events := DomainEvent.error amongUsServersMsg true
              :: (if maxA - (a + 1) = 0 then DomainEvent.error (connectAfterAttemptsMsg maxA) false
                  else DomainEvent.error (connectRetryMoreTimeMsg (maxA - (a + 1))) false)
              :: (doJoin oracle maxA (a + 1)
                  { s with hasClient := true, server := (s.server + 1) % s.masterLen }).events,
            state := (doJoin oracle maxA (a + 1)
              { s with hasClient := true, server := (s.server + 1) % s.masterLen }).state,
            spawnCalls := false :: (doJoin oracle maxA (a + 1)
              { s with hasClient := true, server := (s.server + 1) % s.masterLen }).spawnCalls,
            iters := 1 + (doJoin oracle maxA (a + 1)
              { s with hasClient := true, server := (s.server + 1) % s.masterLen }).iters })) := by
  refine ⟨⟨rfl, rfl, rfl, rfl⟩, ?_⟩
  intro oracle maxA a s hd ha hc
  refine ⟨?_, ?_, ?_, ?_⟩
  · intro hw
    rw [doJoin_warmup_gnf oracle maxA a s hd (by omega) hc (by rw [hw]; rfl)]
    rw [hw]
    rfl
  · intro hw
    rw [doJoin_warmup_ftj oracle maxA a s hd (by omega) hc (by rw [hw]; rfl)]
    rw [hw]
    rfl
  · intro hw
    obtain ⟨hev, hgnf, hftj, hnone⟩ := timeoutClass_initialSpawn (oracle a).warmup hw
    rw [doJoin_warmup_retryable oracle maxA a s hd (by omega) hc hgnf hftj hnone]
    rw [hev]
    rfl
  · intro hw
    rw [doJoin_warmup_retryable oracle maxA a s hd (by omega) hc
      (by rw [hw]; simp [initialSpawn]) (by rw [hw]; simp [initialSpawn])
      (by rw [hw]; simp [initialSpawn])]
    rw [hw]
    rfl

/-- C4 witness: a warmup join rejection reporting game-not-found stops the
loop at once with a single fatal report. -/
theorem initialSpawn_failure_classification_witness :
    doJoin oracleGameNotFound 5 0 stFresh
      = { ok := false, events := [DomainEvent.error gameNotFoundMsg true],
          state := { stFresh with hasClient := true }, spawnCalls := [false], iters := 1 } :=
  (initialSpawn_failure_classification.2 oracleGameNotFound 5 0 stFresh rfl (by omega) rfl).1 rfl

/-- C4 counterexample: a warmup connect failure — a retryable outcome — puts
a fatal=true error on the trace even though the run retries and ultimately
succeeds. -/
theorem doJoin_connect_failure_fatal_report :
    (doJoin oracleConnectFailThenOk 5 0 stFresh).ok = true ∧
    DomainEvent.error amongUsServersMsg true
      ∈ (doJoin oracleConnectFailThenOk 5 0 stFresh).events := by
  have e1 := doJoin_warmup_retryable oracleConnectFailThenOk 5 0 stFresh rfl (by omega) rfl
    (by decide) (by decide) (by decide)
  have e2 := doJoin_warmup_ok_done oracleConnectFailThenOk 5 (0 + 1)
    ({ stFresh with hasClient := true, server := (stFresh.server + 1) % stFresh.masterLen })
    rfl (by omega) rfl (by rfl) true [DomainEvent.hostChange "Alice"]
    ({ ({ stFresh with hasClient := true, server := (stFresh.server + 1) % stFresh.masterLen } : SupState)
        with hasClient := true, hasCaches := true })
    (by rfl)
  rw [e1, e2]
  constructor
  · rfl
  · simp [oracleConnectFailThenOk, initialSpawn]

/-! ### Branch equations for the sethost handler -/

theorem onSetHost_self_sole (oracle : Nat → IterOutcome) (clientid n : Nat)
    (h : PlayerHandle) (s : SupState)
    (hcl : s.hasClient = true) (hid : h.id = clientid) (hn : n = 1) :
    onSetHost oracle clientid n (some h) s
      = { events := [], state := { s with destroyed := true }, rejoinRuns := 0,
          warned := false } := by
  simp [onSetHost, hcl, hid, hn]

theorem onSetHost_self_many (oracle : Nat → IterOutcome) (clientid n : Nat)
    (h : PlayerHandle) (s : SupState)
    (hcl : s.hasClient = true) (hid : h.id = clientid) (hn : n ≠ 1) :
    onSetHost oracle clientid n (some h) s
      = { events := (doJoin oracle 5 0 { s with hasCaches := true }).events,
          state :=
            if (doJoin oracle 5 0 { s with hasCaches := true }).ok
            then (doJoin oracle 5 0 { s with hasCaches := true }).state
            else { (doJoin oracle 5 0 { s with hasCaches := true }).state with destroyed := true },
          rejoinRuns := 1, warned := false } := by
  simp [onSetHost, hcl, hid, hn]

theorem onSetHost_other_named (oracle : Nat → IterOutcome) (clientid n : Nat)
    (h : PlayerHandle) (s : SupState)
    (hcl : s.hasClient = true) (hid : h.id ≠ clientid) (d : PlayerGameData)
    (hd : h.data = some d) :
    onSetHost oracle clientid n (some h) s
      = { events := [DomainEvent.hostChange d.name], state := s, rejoinRuns := 0,
          warned := false } := by
  simp [onSetHost, hcl, hid, hd]

/-- C7 (amended): a host-change naming the backend itself as sole remaining
participant tears the session down permanently with no rejoin and no
events; naming the backend itself with more than one participant runs
exactly one disconnect-with-snapshot plus rejoin cycle, whose emitted events
are exactly those of the `doJoin` rejoin (the handler emits no HostChange of
its own, but a successful rejoin emits one for the new session host when it
has data — see the counterexample for why the original no-HostChange claim
fails); naming another player with data emits exactly one HostChange with
that name. -/
theorem onSetHost_contract (oracle : Nat → IterOutcome) (clientid n : Nat)
    (h : PlayerHandle) (s : SupState) (hcl : s.hasClient = true) :
    (h.id = clientid → n = 1 →
      onSetHost oracle clientid n (some h) s
        = { events := [], state := { s with destroyed := true }, rejoinRuns := 0,
            warned := false }) ∧
    (h.id = clientid → n ≠ 1 →
      onSetHost oracle clientid n (some h) s
        = { events := (doJoin oracle 5 0 { s with hasCaches := true }).events,
            state :=
              if (doJoin oracle 5 0 { s with hasCaches := true }).ok
              then (doJoin oracle 5 0 { s with hasCaches := true }).state
              else { (doJoin oracle 5 0 { s with hasCaches := true }).state with
                      destroyed := true },
            rejoinRuns := 1, warned := false }) ∧
    (h.id ≠ clientid → ∀ (d : PlayerGameData), h.data = some d →
      onSetHost oracle clientid n (some h) s
        = { events := [DomainEvent.hostChange d.name], state := s, rejoinRuns := 0,
            warned := false }) :=
  ⟨fun hid hn => onSetHost_self_sole oracle clientid n h s hcl hid hn,
    fun hid hn => onSetHost_self_many oracle clientid n h s hcl hid hn,
    fun hid d hd => onSetHost_other_named oracle clientid n h s hcl hid d hd⟩

/-- C7 witness: a host change to another player with data emits exactly one
HostChange carrying that name. -/
theorem onSetHost_contract_witness :
    onSetHost oracleRejoinAlice 3 4 (some { id := 7, data := some { name := "Bob", color := 2 } })
        stCached
      = { events := [DomainEvent.hostChange "Bob"], state := stCached, rejoinRuns := 0,
          warned := false } :=
  (onSetHost_contract oracleRejoinAlice 3 4 { id := 7, data := some { name := "Bob", color := 2 } }
      stCached rfl).2.2 (by decide) { name := "Bob", color := 2 } rfl

/-- C7 counterexample: when the backend becomes host with two participants
remaining, the disconnect-plus-rejoin cycle runs once, yet the handler run
does emit a HostChange — the one the successful rejoin produces for the new
session host. -/
theorem onSetHost_self_rejoin_emits_hostchange :
    (onSetHost oracleRejoinAlice 3 2 (some { id := 3, data := none }) stClientNoCaches).events
      = [DomainEvent.hostChange "Alice"] ∧
    (onSetHost oracleRejoinAlice 3 2 (some { id := 3, data := none }) stClientNoCaches).rejoinRuns
      = 1 := by
  have hr : rejoinPhase 5 0
        { ({ stClientNoCaches with hasCaches := true } : SupState) with hasClient := true }
        (oracleRejoinAlice 0).rejoin
      = PhaseOut.done true [DomainEvent.hostChange "Alice"]
          { ({ stClientNoCaches with hasCaches := true } : SupState) with hasClient := true } := by
    rfl
  have e1 := doJoin_cached_done oracleRejoinAlice 5 0
    ({ stClientNoCaches with hasCaches := true }) rfl (by omega) rfl _ _ _ hr
  have e0 := onSetHost_self_many oracleRejoinAlice 3 2 { id := 3, data := none }
    stClientNoCaches rfl rfl (by omega)
  rw [e0, e1]
  exact ⟨rfl, rfl⟩

/-! ### State-cache reattach lemmas -/

theorem mapGet_nil (k : Int) : mapGet [] k = none := rfl

theorem mapGet_cons_eq (p : Int × Entity) (rest : List (Int × Entity)) (k : Int)
    (h : p.1 = k) : mapGet (p :: rest) k = some p.2 := by
  simp [mapGet, List.find?_cons_of_pos, h]

theorem mapGet_cons_ne (p : Int × Entity) (rest : List (Int × Entity)) (k : Int)
    (h : p.1 ≠ k) : mapGet (p :: rest) k = mapGet rest k := by
  simp [mapGet, List.find?_cons_of_neg, h]

theorem mapSet_cons_ne (p : Int × Entity) (rest : List (Int × Entity)) (k : Int) (v : Entity)
    (h : p.1 ≠ k) : mapSet (p :: rest) k v = p :: mapSet rest k v := by
  simp only [mapSet, List.any_cons]
  by_cases ha : rest.any (fun q => q.1 = k) = true
  · rw [if_pos (by simp [h, ha]), if_pos ha]
    simp [h]
  · rw [if_neg (by simp [h, ha]), if_neg ha]
    simp

theorem mapGet_mapSet_self (m : List (Int × Entity)) (k : Int) (v : Entity) :
    mapGet (mapSet m k v) k = some v := by
  induction m with
  | nil => simp [mapSet, mapGet]
  | cons p rest ih =>
    by_cases h : p.1 = k
    · simp only [mapSet, List.any_cons]
      rw [if_pos (by simp [h])]
      simp [mapGet, List.find?_cons_of_pos, h]
    · rw [mapSet_cons_ne p rest k v h, mapGet_cons_ne p _ k h]
      exact ih

theorem mapGet_map_replace_ne (m : List (Int × Entity)) (kr : Int) (v : Entity) (k : Int)
    (h : k ≠ kr) :
    mapGet (m.map (fun q => if q.1 = kr then (kr, v) else q)) k = mapGet m k := by
  induction m with
  | nil => rfl
  | cons p rest ih =>
    simp only [List.map_cons]
    by_cases hp : p.1 = kr
    · rw [if_pos hp]
      rw [mapGet_cons_ne (kr, v) _ k (by simpa using h.symm)]
      rw [mapGet_cons_ne p rest k (by rw [hp]; exact fun hh => h hh.symm)]
      exact ih
    · rw [if_neg hp]
      by_cases hk : p.1 = k
      · rw [mapGet_cons_eq p _ k hk, mapGet_cons_eq p rest k hk]
      · rw [mapGet_cons_ne p _ k hk, mapGet_cons_ne p rest k hk]
        exact ih

theorem mapGet_mapSet_ne (m : List (Int × Entity)) (kr : Int) (v : Entity) (k : Int)
    (h : k ≠ kr) : mapGet (mapSet m kr v) k = mapGet m k := by
  unfold mapSet
  by_cases ha : m.any (fun q => q.1 = kr) = true
  · rw [if_pos ha]
    exact mapGet_map_replace_ne m kr v k h
  · rw [if_neg ha]
    clear ha
    induction m with
    | nil =>
      rw [List.nil_append, mapGet_cons_ne (kr, v) [] k (by simpa using h.symm)]
    | cons p rest ih =>
      simp only [List.cons_append]
      by_cases hk : p.1 = k
      · rw [mapGet_cons_eq p _ k hk, mapGet_cons_eq p rest k hk]
      · rw [mapGet_cons_ne p _ k hk, mapGet_cons_ne p rest k hk]
        exact ih

theorem reattachMap_untouched (r : Nat) :
    ∀ (cache : List (Int × Option Entity)) (m : List (Int × Entity)) (k : Int),
      (∀ p ∈ cache, p.1 ≠ k) →
      mapGet (reattachMap r cache m) k = mapGet m k := by
  intro cache
  induction cache with
  | nil => intro m k _; rfl
  | cons c rest ih =>
    intro m k hk
    obtain ⟨k0, vo⟩ := c
    cases vo with
    | none =>
      exact ih m k (fun p hp => hk p (List.mem_cons_of_mem _ hp))
    | some e =>
      show mapGet (reattachMap r rest (mapSet m k0 { e with room := r })) k = mapGet m k
      rw [ih (mapSet m k0 { e with room := r }) k (fun p hp => hk p (List.mem_cons_of_mem _ hp))]
      exact mapGet_mapSet_ne m k0 _ k
        (fun hkk => (hk (k0, some e) (List.mem_cons_self _ _)) (by simpa using hkk.symm))

theorem reattachMap_get (r : Nat) :
    ∀ (cache : List (Int × Option Entity)) (m : List (Int × Entity)) (k : Int) (e : Entity),
      (cache.map Prod.fst).Nodup → (k, some e) ∈ cache →
      mapGet (reattachMap r cache m) k = some { e with room := r } := by
  intro cache
  induction cache with
  | nil => intro m k e _ hm; simp at hm
  | cons c rest ih =>
    intro m k e hnd hm
    obtain ⟨k0, vo⟩ := c
    simp only [List.map_cons, List.nodup_cons] at hnd
    rcases List.mem_cons.mp hm with hh | ht
    · rw [Prod.mk.injEq] at hh
      obtain ⟨hk, hv⟩ := hh
      subst hk
      subst hv
      show mapGet (reattachMap r rest (mapSet m k { e with room := r })) k = some { e with room := r }
      rw [reattachMap_untouched r rest (mapSet m k { e with room := r }) k
        (fun p hp hpk => hnd.1 (hpk ▸ List.mem_map_of_mem Prod.fst hp))]
      exact mapGet_mapSet_self m k _
    · cases vo with
      | none => exact ih m k e hnd.2 ht
      | some e0 => exact ih (mapSet m k0 { e0 with room := r }) k e hnd.2 ht

theorem countSomePairs_cons_none (k0 : Int) (rest : List (Int × Option Entity)) :
    countSomePairs ((k0, none) :: rest) = countSomePairs rest := by
  simp [countSomePairs]

theorem countSomePairs_cons_some (k0 : Int) (e : Entity) (rest : List (Int × Option Entity)) :
    countSomePairs ((k0, some e) :: rest) = countSomePairs rest + 1 := by
  simp [countSomePairs, List.filter_cons]

theorem reattachMap_length (r : Nat) :
    ∀ (cache : List (Int × Option Entity)) (m : List (Int × Entity)),
      (cache.map Prod.fst).Nodup →
      (∀ p ∈ cache, m.any (fun q => q.1 = p.1) = false) →
      (reattachMap r cache m).length = m.length + countSomePairs cache := by
  intro cache
  induction cache with
  | nil => intro m _ _; simp [reattachMap, countSomePairs]
  | cons c rest ih =>
    intro m hnd hdis
    obtain ⟨k0, vo⟩ := c
    simp only [List.map_cons, List.nodup_cons] at hnd
    cases vo with
    | none =>
      rw [countSomePairs_cons_none]
      exact ih m hnd.2 (fun p hp => hdis p (List.mem_cons_of_mem _ hp))
    | some e =>
      have hm0 : m.any (fun q => q.1 = k0) = false := hdis (k0, some e) (List.mem_cons_self _ _)
      show (reattachMap r rest (mapSet m k0 { e with room := r })).length
        = m.length + countSomePairs ((k0, some e) :: rest)
      have hset : mapSet m k0 { e with room := r } = m ++ [(k0, { e with room := r })] := by
        unfold mapSet
        rw [if_neg (by simp [hm0])]
      rw [hset]
      have hdis2 : ∀ p ∈ rest,
          ((m ++ [(k0, { e with room := r })]).any fun q => decide (q.1 = p.1)) = false := by
        intro p hp
        have hne : p.1 ≠ k0 := by
          intro hpk
          exact hnd.1 (hpk ▸ List.mem_map_of_mem Prod.fst hp)
        have hany := hdis p (List.mem_cons_of_mem _ hp)
        have hne2 : ¬ (k0 = p.1) := fun hh => hne (Eq.symm hh)
        simp [List.any_append, hany, hne2]
      have hlen := ih (m ++ [(k0, { e with room := r })]) hnd.2 hdis2
      rw [hlen]
      simp [countSomePairs_cons_some, List.length_append]
      omega

theorem listSet_length_of_le (l : List (Option Entity)) (i : Nat) (v : Entity)
    (h : l.length ≤ i) : (listSet l i v).length = i + 1 := by
  unfold listSet
  by_cases hlt : i < l.length
  · omega
  · rw [if_neg hlt]
    simp
    omega

theorem listSet_length_ge (l : List (Option Entity)) (i : Nat) (v : Entity) :
    l.length ≤ (listSet l i v).length ∧ i < (listSet l i v).length := by
  unfold listSet
  by_cases hlt : i < l.length
  · rw [if_pos hlt]
    simp
    omega
  · rw [if_neg hlt]
    simp only [List.length_append, List.length_replicate, List.length_cons, List.length_nil]
    omega

theorem listSet_get_self (l : List (Option Entity)) (i : Nat) (v : Entity) :
    (listSet l i v).get? i = some (some v) := by
  unfold listSet
  by_cases hlt : i < l.length
  · rw [if_pos hlt]
    rw [List.get?_set_eq_of_lt]
    simpa using hlt
  · rw [if_neg hlt]
    rw [List.append_assoc]
    rw [List.get?_append_right (by omega)]
    rw [List.get?_append_right (by simp)]
    simp

theorem listSet_get_ne (l : List (Option Entity)) (i : Nat) (v : Entity) (j : Nat)
    (hj : j < l.length) (hne : j ≠ i) : (listSet l i v).get? j = l.get? j := by
  unfold listSet
  by_cases hlt : i < l.length
  · rw [if_pos hlt]
    exact List.get?_set_ne (some v) l (fun hh => hne hh.symm)
  · rw [if_neg hlt]
    rw [List.append_assoc]
    exact List.get?_append hj

theorem countSome_nil : countSome [] = 0 := rfl

theorem countSome_cons_none (rest : List (Option Entity)) :
    countSome (none :: rest) = countSome rest := by
  simp [countSome]

theorem countSome_cons_some (e : Entity) (rest : List (Option Entity)) :
    countSome (some e :: rest) = countSome rest + 1 := by
  simp [countSome, List.filter_cons]

theorem countSome_replicate_none (k : Nat) : countSome (List.replicate k none) = 0 := by
  induction k with
  | zero => rfl
  | succ k ih => rw [List.replicate_succ, countSome_cons_none, ih]

theorem countSome_append (l1 l2 : List (Option Entity)) :
    countSome (l1 ++ l2) = countSome l1 + countSome l2 := by
  simp [countSome, List.filter_append]

theorem countSome_listSet_of_le (l : List (Option Entity)) (i : Nat) (v : Entity)
    (h : l.length ≤ i) : countSome (listSet l i v) = countSome l + 1 := by
  unfold listSet
  rw [if_neg (by omega)]
  rw [countSome_append, countSome_append, countSome_replicate_none, countSome_cons_some,
    countSome_nil]

theorem reattachComponentsGo_preserve (r : Nat) :
    ∀ (cache : List (Option Entity)) (i : Nat) (tgt : List (Option Entity)) (j : Nat),
      j < i → j < tgt.length →
      (reattachComponentsGo r cache i tgt).get? j = tgt.get? j := by
  intro cache
  induction cache with
  | nil => intro i tgt j _ _; rfl
  | cons c rest ih =>
    intro i tgt j hji hjt
    cases c with
    | none => exact ih (i + 1) tgt j (by omega) hjt
    | some e =>
      show (reattachComponentsGo r rest (i + 1) (listSet tgt i { e with room := r })).get? j
        = tgt.get? j
      rw [ih (i + 1) (listSet tgt i { e with room := r }) j (by omega)
        (by have := (listSet_length_ge tgt i { e with room := r }).1; omega)]
      exact listSet_get_ne tgt i _ j hjt (by omega)

theorem reattachComponentsGo_get (r : Nat) :
    ∀ (cache : List (Option Entity)) (i : Nat) (tgt : List (Option Entity)),
      tgt.length ≤ i →
      ∀ (j : Nat) (e : Entity), cache.get? j = some (some e) →
      (reattachComponentsGo r cache i tgt).get? (i + j) = some (some { e with room := r }) := by
  intro cache
  induction cache with
  | nil => intro i tgt _ j e hj; simp at hj
  | cons c rest ih =>
    intro i tgt hlen j e hj
    cases c with
    | none =>
      cases j with
      | zero => simp at hj
      | succ j =>
        have : i + (j + 1) = (i + 1) + j := by omega
        rw [this]
        exact ih (i + 1) tgt (by omega) j e (by simpa using hj)
    | some e0 =>
      cases j with
      | zero =>
        have he : e0 = e := by simpa using hj
        subst he
        show (reattachComponentsGo r rest (i + 1) (listSet tgt i { e0 with room := r })).get? i
          = some (some { e0 with room := r })
        have hpres := reattachComponentsGo_preserve r rest (i + 1)
          (listSet tgt i { e0 with room := r }) i (by omega)
          (listSet_length_ge tgt i { e0 with room := r }).2
        rw [hpres]
        exact listSet_get_self tgt i { e0 with room := r }
      | succ j =>
        have harith : i + (j + 1) = (i + 1) + j := by omega
        rw [harith]
        show (reattachComponentsGo r rest (i + 1) (listSet tgt i { e0 with room := r })).get?
          ((i + 1) + j) = some (some { e with room := r })
        exact ih (i + 1) (listSet tgt i { e0 with room := r })
          (by rw [listSet_length_of_le tgt i _ hlen]) j e (by simpa using hj)

theorem reattachComponentsGo_countSome (r : Nat) :
    ∀ (cache : List (Option Entity)) (i : Nat) (tgt : List (Option Entity)),
      tgt.length ≤ i →
      countSome (reattachComponentsGo r cache i tgt) = countSome tgt + countSome cache := by
  intro cache
  induction cache with
  | nil => intro i tgt _; simp [reattachComponentsGo, countSome_nil]
  | cons c rest ih =>
    intro i tgt hlen
    cases c with
    | none =>
      rw [countSome_cons_none]
      exact ih (i + 1) tgt (by omega)
    | some e =>
      show countSome (reattachComponentsGo r rest (i + 1) (listSet tgt i { e with room := r }))
        = countSome tgt + countSome (some e :: rest)
      rw [ih (i + 1) (listSet tgt i { e with room := r })
        (by rw [listSet_length_of_le tgt i _ hlen])]
      rw [countSome_listSet_of_le tgt i _ hlen, countSome_cons_some]
      omega

/-- C5 (amended): the reattach step rebinds the owning-session back-reference
of every non-null cached entity to the new session and reinserts it into the
corresponding registry under its original key or index; with distinct cache
keys the player / component registries receive exactly one entry per
non-null cached entry, and the singleton list receives exactly its non-hole
entries at their original indices — null holes are skipped without error and
are not inserted, so an L-length singleton list with holes yields fewer than
L insertions (see the counterexample). -/
theorem reattach_contract :
    (∀ (r : Nat) (cache : List (Int × Option Entity)) (m : List (Int × Entity))
        (k : Int) (e : Entity),
        (cache.map Prod.fst).Nodup → (k, some e) ∈ cache →
        mapGet (reattachMap r cache m) k = some { e with room := r }) ∧
    (∀ (r : Nat) (cache : List (Int × Option Entity)),
        (cache.map Prod.fst).Nodup →
        (reattachMap r cache []).length = countSomePairs cache) ∧
    (∀ (r : Nat) (cache : List (Option Entity)) (j : Nat) (e : Entity),
        cache.get? j = some (some e) →
        (reattachComponents r cache []).get? j = some (some { e with room := r })) ∧
    (∀ (r : Nat) (cache : List (Option Entity)),
        countSome (reattachComponents r cache []) = countSome cache) :=
  ⟨fun r cache m k e hnd hm => reattachMap_get r cache m k e hnd hm,
    fun r cache hnd =>
      (reattachMap_length r cache [] hnd (fun _ _ => rfl)).trans (Nat.zero_add _),
    fun r cache j e hj => by
      have hg := reattachComponentsGo_get r cache 0 [] (Nat.zero_le 0) j e hj
      rwa [Nat.zero_add] at hg,
    fun r cache =>
      (reattachComponentsGo_countSome r cache 0 [] (Nat.zero_le 0)).trans (Nat.zero_add _)⟩

/-- C5 witness: the contract evaluated on a two-entry cached map with one
hole and a two-entry singleton list with one hole. -/
theorem reattach_contract_witness :
    mapGet (reattachMap 7 [(2, some { ownerid := 5, room := 0 }), (3, none)] []) 2
      = some { ownerid := 5, room := 7 } ∧
    (reattachMap 7 [(2, some { ownerid := 5, room := 0 }), (3, none)] []).length
      = countSomePairs [(2, some { ownerid := 5, room := 0 }), (3, none)] ∧
    (reattachComponents 7 [some { ownerid := 5, room := 0 }, none] []).get? 0
      = some (some { ownerid := 5, room := 7 }) ∧
    countSome (reattachComponents 7 [some { ownerid := 5, room := 0 }, none] [])
      = countSome [some { ownerid := 5, room := 0 }, none] :=
  ⟨reattach_contract.1 7 [(2, some { ownerid := 5, room := 0 }), (3, none)] [] 2
      { ownerid := 5, room := 0 } (by decide) (by simp),
    reattach_contract.2.1 7 [(2, some { ownerid := 5, room := 0 }), (3, none)] (by decide),
    reattach_contract.2.2.1 7 [some { ownerid := 5, room := 0 }, none] 0
      { ownerid := 5, room := 0 } rfl,
    reattach_contract.2.2.2 7 [some { ownerid := 5, room := 0 }, none]⟩

/-- C5 counterexample: a singleton list of length L = 1 holding one null
hole inserts zero entries, not L, into the new registries. -/
theorem reattachComponents_hole_not_inserted :
    reattachComponents 1 [none] [] = ([] : List (Option Entity)) ∧
    ([none] : List (Option Entity)).length = 1 :=
  ⟨rfl, rfl⟩

end AUP

